import Mathlib

/-
  Verification development for the wacap WhatsApp-wrapper repository.

  Shallow embedding of:
  - the JID / phone-number formatter (src/src/handlers/wrapper.helpers.ts),
  - the two storage adapters' upsert operations
    (SQLiteStorageAdapter, src/unnamed/part_006; PrismaStorageAdapter,
    src/src/storage/prisma-adapter.ts),
  - the session lifecycle controller (the `Session` class wired into
    `SessionRegistry`, i.e. the revision in src/src/core/wacap-wrapper.ts
    lines 485-832 together with src/src/handlers/connection.handler.ts),
  - the `SessionRegistry` (src/src/core/wacap-wrapper.ts lines 370-450) and
    the bulk-start helpers of `WacapWrapper`.

  Asynchronous suspension points that matter to the statements (the
  `await delay(backoffMs)` inside `handleReconnect`) are modelled by
  splitting the JS async function at the suspension: `handleReconnectBegin`
  performs everything up to the `await delay`, recording the queued timer in
  `pendingDelay`, and `reconnectTimerFire` is the continuation that runs when
  the delay expires.  Wall-clock values are threaded as explicit `now : Nat`
  arguments; success/failure of awaited socket operations is an explicit
  `ok : Bool` argument.
-/

namespace Wacap

/-! ## JID formatting (src/src/handlers/wrapper.helpers.ts)

String primitives are re-implemented over the underlying character list so
that every definition is kernel-computable; they mirror the JS `String`
methods used by the source (`trim`, `endsWith`, `startsWith`, `includes`,
`substring`, `length`). -/

/-- The whitespace class stripped by JS `String.prototype.trim` (ASCII part). -/
def jsWhitespace (c : Char) : Bool :=
  c = ' ' || c = '\t' || c = '\n' || c = '\r' || c = '\x0b' || c = '\x0c'

/-- JS `input.trim()`. -/
def jsTrim (s : String) : String :=
  ⟨((s.toList.dropWhile jsWhitespace).reverse.dropWhile jsWhitespace).reverse⟩

/-- JS `s.endsWith(suffix)`. -/
def strEndsWith (s suffix : String) : Bool :=
  suffix.toList.isSuffixOf s.toList

/-- JS `s.startsWith(p)`. -/
def strStartsWith (s p : String) : Bool :=
  p.toList.isPrefixOf s.toList

/-- JS `s.includes(c)` for a single character. -/
def strContainsChar (s : String) (c : Char) : Bool :=
  s.toList.contains c

/-- JS `s.substring(n)`. -/
def strDrop (s : String) (n : Nat) : String :=
  ⟨s.toList.drop n⟩

/-- JS `s.length` (identical to the code-unit count on the digit strings the
formatter measures). -/
def strLen (s : String) : Nat :=
  s.toList.length

/-- JS regex `/^\d+-\d+$/`: one or more digits, a hyphen, one or more digits. -/
def hyphenGroupPattern (s : List Char) : Bool :=
  let a := s.takeWhile Char.isDigit
  match s.drop a.length with
  | '-' :: b => !a.isEmpty && !b.isEmpty && b.all Char.isDigit
  | _ => false

/-- JS regex `/^120363\d{12,}$/`: the reserved group id pattern. -/
def groupIdPattern (s : List Char) : Bool :=
  match s with
  | '1' :: '2' :: '0' :: '3' :: '6' :: '3' :: rest =>
      decide (12 ≤ rest.length) && rest.all Char.isDigit
  | _ => false

/-- JS `str.replace(/\D/g, '')`: keep only ASCII digits. -/
def stripNonDigits (s : String) : String :=
  ⟨s.toList.filter Char.isDigit⟩

/-- True when the (trimmed) input already carries one of the four recognized
WhatsApp suffixes, i.e. the PRIORITY 1 early-return block of `formatJid`. -/
def hasJidSuffix (s : String) : Bool :=
  strEndsWith s "@s.whatsapp.net" || strEndsWith s "@g.us" ||
    strEndsWith s "@lid" || strEndsWith s "@broadcast"

/-- `formatJid(input, isGroup?, isLid?)`.  Throwing is modelled with `Except`;
the `console.warn` for unusual digit counts has no effect on the result and is
not represented. -/
def formatJid (input : String) (isGroup : Option Bool) (isLid : Option Bool) :
    Except String String :=
  if input = "" then .error "JID/nomor tidak boleh kosong"
  else
    let cleaned := jsTrim input
    if strEndsWith cleaned "@s.whatsapp.net" then .ok cleaned
    else if strEndsWith cleaned "@g.us" then .ok cleaned
    else if strEndsWith cleaned "@lid" then .ok cleaned
    else if strEndsWith cleaned "@broadcast" then .ok cleaned
    else if isLid = some true then .ok (stripNonDigits cleaned ++ "@lid")
    else if isGroup = some true then .ok (cleaned ++ "@g.us")
    else if hyphenGroupPattern cleaned.toList then .ok (cleaned ++ "@g.us")
    else if groupIdPattern cleaned.toList then .ok (cleaned ++ "@g.us")
    else
      let digits := stripNonDigits cleaned
      let digits :=
        if strStartsWith digits "0" then "62" ++ strDrop digits 1
        else if strStartsWith digits "8" && decide (9 ≤ strLen digits) &&
            decide (strLen digits ≤ 13) then "62" ++ digits
        else digits
      .ok (digits ++ "@s.whatsapp.net")

/-- `smartFormatJid(input)`. -/
def smartFormatJid (input : String) : Except String String :=
  if input = "" then .error "JID/nomor tidak boleh kosong"
  else
    let cleaned := jsTrim input
    if strContainsChar cleaned '@' then .ok cleaned
    else if strContainsChar cleaned '-' then formatJid cleaned (some true) none
    else if groupIdPattern cleaned.toList then formatJid cleaned (some true) none
    else formatJid cleaned none none

/-- `formatJids(inputs, isGroup?, isLid?)`: the batch variant. -/
def formatJids (inputs : List String) (isGroup : Option Bool) (isLid : Option Bool) :
    List (Except String String) :=
  inputs.map (fun i => formatJid i isGroup isLid)

/-- Discriminator used in statements about the throw/no-throw behaviour. -/
def exOk {ε α : Type} (e : Except ε α) : Bool :=
  match e with
  | .ok _ => true
  | .error _ => false

instance {ε α : Type} [DecidableEq ε] [DecidableEq α] : DecidableEq (Except ε α) := fun a b =>
  match a, b with
  | .ok x, .ok y =>
      if h : x = y then isTrue (by rw [h]) else isFalse (by intro hc; cases hc; exact h rfl)
  | .error x, .error y =>
      if h : x = y then isTrue (by rw [h]) else isFalse (by intro hc; cases hc; exact h rfl)
  | .ok _, .error _ => isFalse (by intro hc; cases hc)
  | .error _, .ok _ => isFalse (by intro hc; cases hc)

/-! ## Storage adapters

`SQLiteStorageAdapter` (src/unnamed/part_006) and `PrismaStorageAdapter`
(src/src/storage/prisma-adapter.ts).  Tables are modelled as row lists in
insertion order; `INSERT ... ON CONFLICT(key) DO UPDATE` / `prisma.upsert`
becomes: update the matching row in place when one exists, else append.
The serialized `JSON.stringify(...)` columns store the record itself. -/

/-- The fields of a Baileys `WAMessage` the adapters read: `key.id`,
`key.remoteJid`, `key.fromMe`, `messageTimestamp`, plus the rest of the
protocol object (opaque `payload`). -/
structure WAMessage where
  keyId : String
  remoteJid : String
  fromMe : Bool
  messageTimestamp : Nat
  payload : String
deriving DecidableEq, Repr

structure WAContact where
  id : String
  name : Option String
  notify : Option String
deriving DecidableEq, Repr

structure WAChat where
  id : String
  payload : String
deriving DecidableEq, Repr

structure SessionRow where
  session_id : String
  creds : String
  created_at : Nat
  updated_at : Nat
deriving DecidableEq, Repr

structure MessageRow where
  id : String
  session_id : String
  jid : String
  message : WAMessage
  timestamp : Nat
  from_me : Bool
deriving DecidableEq, Repr

structure ContactRow where
  id : String
  session_id : String
  jid : String
  name : Option String
  notify : Option String
  data : WAContact
deriving DecidableEq, Repr

structure ChatRow where
  id : String
  session_id : String
  jid : String
  data : WAChat
  timestamp : Nat
deriving DecidableEq, Repr

structure SqliteDb where
  sessions : List SessionRow
  messages : List MessageRow
  contacts : List ContactRow
  chats : List ChatRow
deriving DecidableEq, Repr

def SqliteDb.empty : SqliteDb := ⟨[], [], [], []⟩

/-- Shared semantics of `INSERT ... ON CONFLICT(key) DO UPDATE` and
`prisma.<table>.upsert`: when a row matching the conflict key exists it is
updated in place, otherwise the fresh row is appended. -/
def upsert {α : Type} (key : α → Bool) (upd : α → α) (new : α) (tbl : List α) : List α :=
  if tbl.any key then tbl.map (fun r => if key r then upd r else r) else tbl ++ [new]

/-- The messages conflict key: `ON CONFLICT(id)` / `where: \x7b id: messageId \x7d`
— the message id alone, in both backends. -/
def msgKey (m : WAMessage) : MessageRow → Bool :=
  fun r => r.id = m.keyId

/-- `Number(rawTs) || Date.now()`: a zero/absent message timestamp becomes `now`. -/
def msgTs (now : Nat) (m : WAMessage) : Nat :=
  if m.messageTimestamp = 0 then now else m.messageTimestamp

/-- The `DO UPDATE SET message = ..., timestamp = ...` clause. -/
def msgUpd (m : WAMessage) (ts : Nat) : MessageRow → MessageRow :=
  fun r => { r with message := m, timestamp := ts }

/-- The inserted message row. -/
def msgNew (sessionId : String) (m : WAMessage) (ts : Nat) : MessageRow :=
  ⟨m.keyId, sessionId, m.remoteJid, m, ts, m.fromMe⟩

/-- The SQLite contacts conflict key: `ON CONFLICT(session_id, jid)`. -/
def contactKeySql (sessionId : String) (c : WAContact) : ContactRow → Bool :=
  fun r => r.session_id = sessionId && r.jid = c.id

/-- The Prisma contacts conflict key: the composed row id `sessionId:contact.id`. -/
def contactKeyPrisma (sessionId : String) (c : WAContact) : ContactRow → Bool :=
  fun r => r.id = sessionId ++ ":" ++ c.id

def contactUpd (c : WAContact) : ContactRow → ContactRow :=
  fun r => { r with name := c.name, notify := c.notify, data := c }

def contactNew (sessionId : String) (c : WAContact) : ContactRow :=
  ⟨sessionId ++ ":" ++ c.id, sessionId, c.id, c.name, c.notify, c⟩

/-- The SQLite chats conflict key: `ON CONFLICT(session_id, jid)`. -/
def chatKeySql (sessionId : String) (chat : WAChat) : ChatRow → Bool :=
  fun r => r.session_id = sessionId && r.jid = chat.id

/-- The Prisma chats conflict key: the composed row id `sessionId:chat.id`. -/
def chatKeyPrisma (sessionId : String) (chat : WAChat) : ChatRow → Bool :=
  fun r => r.id = sessionId ++ ":" ++ chat.id

def chatUpd (chat : WAChat) (now : Nat) : ChatRow → ChatRow :=
  fun r => { r with data := chat, timestamp := now }

def chatNew (sessionId : String) (chat : WAChat) (now : Nat) : ChatRow :=
  ⟨sessionId ++ ":" ++ chat.id, sessionId, chat.id, chat, now⟩

/-- `ensureSessionExists`: `INSERT OR IGNORE INTO sessions` with creds `'\x7b\x7d'`. -/
def SQLiteStorageAdapter.ensureSessionExists (now : Nat) (sessionId : String)
    (db : SqliteDb) : SqliteDb :=
  if db.sessions.any (fun r => r.session_id = sessionId) then db
  else { db with sessions := db.sessions ++ [⟨sessionId, "\x7b\x7d", now, now⟩] }

/-- `SQLiteStorageAdapter.saveMessage`: `INSERT INTO messages ...
ON CONFLICT(id) DO UPDATE SET message = excluded.message, timestamp =
excluded.timestamp`.  The conflict target is the `id` primary key alone.
`Number(rawTs) || Date.now()` maps a zero/absent timestamp to `now`. -/
def SQLiteStorageAdapter.saveMessage (now : Nat) (sessionId : String) (m : WAMessage)
    (db : SqliteDb) : SqliteDb :=
  { SQLiteStorageAdapter.ensureSessionExists now sessionId db with messages :=
      (upsert (msgKey m) (msgUpd m (msgTs now m)) (msgNew sessionId m (msgTs now m))
        (SQLiteStorageAdapter.ensureSessionExists now sessionId db).messages) }

/-- `SQLiteStorageAdapter.saveContact`: conflict target `(session_id, jid)`,
row id `sessionId:contact.id`. -/
def SQLiteStorageAdapter.saveContact (now : Nat) (sessionId : String) (c : WAContact)
    (db : SqliteDb) : SqliteDb :=
  { SQLiteStorageAdapter.ensureSessionExists now sessionId db with contacts :=
      (upsert (contactKeySql sessionId c) (contactUpd c) (contactNew sessionId c)
        (SQLiteStorageAdapter.ensureSessionExists now sessionId db).contacts) }

/-- `SQLiteStorageAdapter.saveChat`: conflict target `(session_id, jid)`,
timestamp column is `Date.now()`. -/
def SQLiteStorageAdapter.saveChat (now : Nat) (sessionId : String) (chat : WAChat)
    (db : SqliteDb) : SqliteDb :=
  { SQLiteStorageAdapter.ensureSessionExists now sessionId db with chats :=
      (upsert (chatKeySql sessionId chat) (chatUpd chat now) (chatNew sessionId chat now)
        (SQLiteStorageAdapter.ensureSessionExists now sessionId db).chats) }

structure PrismaDb where
  messages : List MessageRow
  contacts : List ContactRow
  chats : List ChatRow
deriving DecidableEq, Repr

def PrismaDb.empty : PrismaDb := ⟨[], [], []⟩

/-- `PrismaStorageAdapter.saveMessage`: `prisma.message.upsert(\x7b where: \x7b id:
messageId \x7d ... \x7d)` — keyed by the message id alone; the stored timestamp is
`new Date(timestamp * 1000)`, modelled as milliseconds. -/
def PrismaStorageAdapter.saveMessage (sessionId : String) (m : WAMessage)
    (db : PrismaDb) : PrismaDb :=
  { db with messages :=
      (upsert (msgKey m) (msgUpd m (m.messageTimestamp * 1000))
        (msgNew sessionId m (m.messageTimestamp * 1000)) db.messages) }

/-- `PrismaStorageAdapter.saveContact`: upsert keyed by the composed id
`sessionId:contact.id`. -/
def PrismaStorageAdapter.saveContact (sessionId : String) (c : WAContact)
    (db : PrismaDb) : PrismaDb :=
  { db with contacts :=
      (upsert (contactKeyPrisma sessionId c) (contactUpd c) (contactNew sessionId c)
        db.contacts) }

/-- `PrismaStorageAdapter.saveChat`: upsert keyed by the composed id
`sessionId:chat.id`, timestamp `new Date()`. -/
def PrismaStorageAdapter.saveChat (now : Nat) (sessionId : String) (chat : WAChat)
    (db : PrismaDb) : PrismaDb :=
  { db with chats :=
      (upsert (chatKeyPrisma sessionId chat) (chatUpd chat now) (chatNew sessionId chat now)
        db.chats) }

/-- Written from the spec's words, for refinement comparison only (§3
invariant: "writes are idempotent upserts keyed by (session identifier,
natural key)"): a message upsert whose conflict key is the *pair* of the
session identifier and the message id, unlike the code's id-only key. -/
def specSaveMessageKeyedBySession (sessionId : String) (m : WAMessage)
    (tbl : List MessageRow) : List MessageRow :=
  upsert (fun r => r.session_id = sessionId && r.id = m.keyId)
    (fun r => { r with message := m, timestamp := m.messageTimestamp })
    ⟨m.keyId, sessionId, m.remoteJid, m, m.messageTimestamp, m.fromMe⟩ tbl

/-! ## Session lifecycle controller

The `Session` class that `SessionRegistry` instantiates (the revision at
src/src/core/wacap-wrapper.ts lines 485-832) together with the
`connection.update` handler it registers
(src/src/handlers/connection.handler.ts).  An earlier revision kept in
src/src/core/session.ts inlines the close handling with a fixed 3000 ms
delay; the registry-wired revision modelled here uses the capped exponential
backoff of `handleReconnect`. -/

inductive Status where
  | disconnected
  | connecting
  | qr
  | connected
  | error
deriving DecidableEq, Repr

/-- The normalized event kinds a session publishes (to its local
`EventManager` and to the global `EventBus`; both receive every emission, so
one log models the common sequence). -/
inductive EvKind where
  | connectionUpdate
  | qrCode
  | connectionOpen
  | connectionClose
  | sessionStart
  | sessionStop
  | sessionError
deriving DecidableEq, Repr

/-- The mutable fields of a `Session` object, plus: `authFiles` — whether the
per-session credential directory (`sessionPath`, owned by
`useMultiFileAuthState`) currently holds credentials; `events` — the emission
log of `emitBoth`; `pendingDelay` — the backoff timer queued by
`handleReconnect` at its `await delay(backoffMs)` suspension point, if any. -/
structure Session where
  sessionId : String
  status : Status
  socket : Bool
  isConnecting : Bool
  shouldReconnect : Bool
  reconnecting : Bool
  retryCount : Nat
  maxRetries : Nat
  lastError : Option String
  authFiles : Bool
  createdAt : Nat
  startedAt : Option Nat
  updatedAt : Nat
  lastSeenAt : Option Nat
  events : List EvKind
  pendingDelay : Option Nat
deriving DecidableEq, Repr

/-- The `Session` constructor: status `disconnected`, `shouldReconnect` true,
retry counter zero, `updatedAt = createdAt`.  Whether the session directory
already holds credentials from an earlier run is the `creds` argument. -/
def Session.make (id : String) (maxRetries : Nat) (creds : Bool) (now : Nat) : Session :=
  ⟨id, .disconnected, false, false, true, false, 0, maxRetries, none, creds,
    now, none, now, none, [], none⟩

def updateStatus (now : Nat) (st : Status) (err : Option String) (s : Session) : Session :=
  { s with status := st, updatedAt := now, lastError := err }

def touchActivity (now : Nat) (s : Session) : Session :=
  { s with lastSeenAt := some now, updatedAt := now }

/-- `emitBoth`: publish once to the session's local event manager and once to
the global bus. -/
def emitBoth (e : EvKind) (s : Session) : Session :=
  { s with events := s.events ++ [e] }

/-- `connect()`.  The awaited steps (auth-state load, version fetch, socket
construction) either all succeed (`ok = true`) or throw (`ok = false`); the
returned flag reports whether the call threw.  The baseline-metadata write to
the storage adapter has no effect on the session object and is not tracked
here. -/
def Session.connect (ok : Bool) (now : Nat) (s : Session) : Session × Bool :=
  if s.isConnecting || s.reconnecting then (s, false)
  else
    let s := updateStatus now .connecting none { s with isConnecting := true }
    if ok then
      let s := { s with socket := true }
      let s := { s with startedAt := some (s.startedAt.getD now) }
      let s := touchActivity now s
      let s := emitBoth .sessionStart s
      ({ s with isConnecting := false }, false)
    else
      let s := updateStatus now .error (some "connect failed") s
      ({ s with isConnecting := false }, true)

/-- `start()`: throws when a socket is live or a connect is in flight;
otherwise re-arms reconnection, resets the retry counter and connects. -/
def Session.start (ok : Bool) (now : Nat) (s : Session) :
    Except (String × Session) Session :=
  if s.isConnecting || s.socket then
    .error (s!"Session {s.sessionId} is already active or connecting", s)
  else
    let s := { s with shouldReconnect := true, retryCount := 0 }
    let s := updateStatus now .connecting none s
    let p := Session.connect ok now s
    if p.2 then .error ("connect failed", updateStatus now .error (some "connect failed") p.1)
    else .ok p.1

/-- `backoffMs` for the `attempt`-th consecutive reconnect:
`Math.min(30000, 2000 * Math.pow(2, this.retryCount - 1))` computed after the
counter increment. -/
def backoffMs (attempt : Nat) : Nat :=
  min 30000 (2000 * 2 ^ (attempt - 1))

/-- `handleReconnect` up to its `await delay(backoffMs)` suspension: guard on
the reconnect flag and the `reconnecting` latch, then either queue the
backoff timer (retry budget left) or transition to `error` and publish
`SESSION_ERROR` (budget exhausted). -/
def Session.handleReconnectBegin (err : Option String) (now : Nat) (s : Session) : Session :=
  if !s.shouldReconnect || s.reconnecting then s
  else
    let s := { s with reconnecting := true }
    if s.retryCount < s.maxRetries then
      let s := { s with retryCount := s.retryCount + 1 }
      { s with pendingDelay := some (backoffMs s.retryCount) }
    else
      let s := { s with reconnecting := false }
      let s := updateStatus now .error err s
      emitBoth .sessionError s

/-- The continuation of `handleReconnect` that runs when the queued delay
expires: detach listeners, drop the dead socket, clear the latch, call
`connect()` again.  Nothing in the source re-checks `shouldReconnect` here. -/
def Session.reconnectTimerFire (ok : Bool) (now : Nat) (s : Session) : Session :=
  match s.pendingDelay with
  | none => s
  | some _ =>
      let s := { s with pendingDelay := none, socket := false, reconnecting := false }
      (Session.connect ok now s).1

/-- `resetAuthState`: `rmSync(sessionPath, ...)` then `mkdirSync` — wipes the
credential directory. -/
def Session.resetAuthState (s : Session) : Session :=
  { s with authFiles := false }

/-- `handleLoggedOut`: reset status and counter, drop the socket, wipe the
credential directory, and — when reconnection is still enabled — publish
`SESSION_ERROR` and connect again after a fixed 1000 ms delay (the delay is
modelled as running to completion). -/
def Session.handleLoggedOut (ok : Bool) (err : Option String) (now : Nat) (s : Session) :
    Session :=
  let s := updateStatus now .disconnected err s
  let s := { s with retryCount := 0, socket := false }
  let s := Session.resetAuthState s
  if !s.shouldReconnect then s
  else
    let s := emitBoth .sessionError s
    (Session.connect ok now s).1

/-- `connection.update` with a `qr` field (src/src/handlers/connection.handler.ts):
status `qr`, QR rendering per config, `QR_CODE` event. -/
def Session.onQr (now : Nat) (s : Session) : Session :=
  let s := emitBoth .connectionUpdate s
  let s := updateStatus now .qr none s
  emitBoth .qrCode s

/-- `connection.update` with `connection === 'open'`: reset the retry
counter, status `connected`, touch activity, publish `CONNECTION_OPEN`. -/
def Session.onOpen (now : Nat) (s : Session) : Session :=
  let s := emitBoth .connectionUpdate s
  let s := { s with retryCount := 0 }
  let s := updateStatus now .connected none s
  let s := touchActivity now s
  emitBoth .connectionOpen s

/-- `connection.update` with `connection === 'close'` and a status code other
than `DisconnectReason.loggedOut`: drop the socket, status `connecting`,
publish `CONNECTION_CLOSE`, then `handleReconnect`. -/
def Session.onCloseTransient (err : Option String) (now : Nat) (s : Session) : Session :=
  let s := emitBoth .connectionUpdate s
  let s := { s with socket := false }
  let s := updateStatus now .connecting err s
  let s := emitBoth .connectionClose s
  Session.handleReconnectBegin err now s

/-- `connection.update` close with `DisconnectReason.loggedOut`. -/
def Session.onCloseLoggedOut (ok : Bool) (err : Option String) (now : Nat) (s : Session) :
    Session :=
  let s := emitBoth .connectionUpdate s
  let s := { s with socket := false }
  let s := updateStatus now .disconnected err s
  let s := emitBoth .connectionClose s
  Session.handleLoggedOut ok err now s

/-- `stop()`: disable reconnection, zero the counter, detach listeners and
sign the socket off when present, status `disconnected`, publish
`SESSION_STOP`.  No statement in the source touches `pendingDelay`. -/
def Session.stop (now : Nat) (s : Session) : Session :=
  let s := { s with shouldReconnect := false, retryCount := 0 }
  let s := if s.socket then { s with socket := false } else s
  let s := updateStatus now .disconnected none s
  emitBoth .sessionStop s

/-- Modelled from the spec: `Session.logout` is invoked by
`SessionRegistry.logout` (src/src/core/wacap-wrapper.ts line 425) but its
body is not among the sources.  Per spec §4.3, `logout()` is "as `stop()`,
but additionally revokes credentials server-side and deletes local credential
storage". -/
def Session.logout (now : Nat) (s : Session) : Session :=
  let s := Session.stop now s
  { s with authFiles := false }

def Session.isActive (s : Session) : Bool :=
  s.socket

/-- One full transient-failure round while reconnection is armed: the socket
closes, `handleReconnect` queues its backoff, the timer fires and the
replacement `connect()` succeeds. -/
def Session.transientCycle (s : Session) : Session :=
  Session.reconnectTimerFire true 0 (Session.onCloseTransient (some "connection closed") 0 s)

/-- The session produced by a successful `start()` on a fresh controller. -/
def startedSession (id : String) (maxRetries : Nat) : Session :=
  (Session.connect true 0 (updateStatus 0 .connecting none
    { Session.make id maxRetries true 0 with shouldReconnect := true, retryCount := 0 })).1

/-- The state after `k` consecutive transient failures (each one fully
processed: close, backoff, timer expiry, successful reconnect) of a started
session with the given retry budget. -/
def failTrace (maxRetries k : Nat) : Session :=
  match k with
  | 0 => startedSession "s1" maxRetries
  | Nat.succ k => Session.transientCycle (failTrace maxRetries k)

/-! ## Session registry and bulk-start helpers

`SessionRegistry` (src/src/core/wacap-wrapper.ts lines 370-450) keeps a
`Map<string, Session>`; the map is modelled extensionally as a function from
ids.  `loadAllStoredSessions` is the `WacapWrapper` warm-boot sweep (lines
141-158); the discovered id list is passed in directly. -/

def SessionRegistry : Type := String → Option Session

def SessionRegistry.empty : SessionRegistry := fun _ => none

def SessionRegistry.get (r : SessionRegistry) (id : String) : Option Session := r id

def SessionRegistry.has (r : SessionRegistry) (id : String) : Bool := (r id).isSome

def SessionRegistry.set (r : SessionRegistry) (id : String) (s : Session) : SessionRegistry :=
  fun x => if x = id then some s else r x

def SessionRegistry.remove (r : SessionRegistry) (id : String) : SessionRegistry :=
  fun x => if x = id then none else r x

/-- The tail of `create` that constructs a `Session`, registers it in the map
*before* starting it, and then starts it; a start failure propagates but the
freshly registered (failed) entry stays in the map, exactly as in the JS
mutation order. -/
def SessionRegistry.createNew (r : SessionRegistry) (id : String) (maxRetries : Nat)
    (creds ok : Bool) (now : Nat) :
    Except (String × SessionRegistry) (Session × SessionRegistry) :=
  let s := Session.make id maxRetries creds now
  let r := SessionRegistry.set r id s
  match Session.start ok now s with
  | .ok s' => .ok (s', SessionRegistry.set r id s')
  | .error (msg, s') => .error (msg, SessionRegistry.set r id s')

/-- `create(sessionId, override?)`: return the existing instance when it is
active, else discard the stale entry and construct/start/register a new one.
Configuration merging reduces to the effective `maxRetries` here. -/
def SessionRegistry.create (r : SessionRegistry) (id : String) (maxRetries : Nat)
    (creds ok : Bool) (now : Nat) :
    Except (String × SessionRegistry) (Session × SessionRegistry) :=
  match r id with
  | some existing =>
      if existing.socket then .ok (existing, r)
      else SessionRegistry.createNew (SessionRegistry.remove r id) id maxRetries creds ok now
  | none => SessionRegistry.createNew r id maxRetries creds ok now

/-- `destroy(sessionId)`: stop the named controller if present, remove it. -/
def SessionRegistry.destroy (r : SessionRegistry) (id : String) (now : Nat) : SessionRegistry :=
  match r id with
  | none => r
  | some s =>
      let _ := Session.stop now s
      SessionRegistry.remove r id

/-- `startByIds(sessionIds, override?)`: sequential `create` with **no**
per-id try/catch — the first failure propagates out of the loop. -/
def SessionRegistry.startByIds (r : SessionRegistry) (ids : List String) (maxRetries : Nat)
    (creds : Bool) (oks : String → Bool) (now : Nat) :
    Except (String × SessionRegistry) (List Session × SessionRegistry) :=
  match ids with
  | [] => .ok ([], r)
  | id :: rest =>
      match SessionRegistry.create r id maxRetries creds (oks id) now with
      | .error e => .error e
      | .ok (s, r') =>
          match SessionRegistry.startByIds r' rest maxRetries creds oks now with
          | .error e => .error e
          | .ok (ss, r'') => .ok (s :: ss, r'')

/-- `WacapWrapper.loadAllStoredSessions`: for each stored id not already
registered, try to start it and *catch* any failure, so the sweep always
reaches the remaining ids.  Returns the started ids and the final registry. -/
def loadAllStoredSessions (r : SessionRegistry) (storedIds : List String) (maxRetries : Nat)
    (creds : Bool) (oks : String → Bool) (now : Nat) : List String × SessionRegistry :=
  match storedIds with
  | [] => ([], r)
  | id :: rest =>
      if SessionRegistry.has r id then loadAllStoredSessions r rest maxRetries creds oks now
      else
        match SessionRegistry.create r id maxRetries creds (oks id) now with
        | .ok (_, r') =>
            let p := loadAllStoredSessions r' rest maxRetries creds oks now
            (id :: p.1, p.2)
        | .error (_, r') => loadAllStoredSessions r' rest maxRetries creds oks now

/-- Projections used by closed statements about `startByIds` outcomes. -/
def sbiReg (e : Except (String × SessionRegistry) (List Session × SessionRegistry)) :
    SessionRegistry :=
  match e with
  | .error (_, r) => r
  | .ok (_, r) => r

def sbiFailed (e : Except (String × SessionRegistry) (List Session × SessionRegistry)) :
    Bool :=
  match e with
  | .error _ => true
  | .ok _ => false

/-- The registry state an outcome of `create` leaves behind. -/
def createReg (e : Except (String × SessionRegistry) (Session × SessionRegistry)) :
    SessionRegistry :=
  match e with
  | .error (_, r) => r
  | .ok (_, r) => r

/-! ## Concrete scenarios referenced by closed statements -/

/-- A connected session (connection opened at time 1) with retry budget 5. -/
def connectedSession : Session := Session.onOpen 1 (startedSession "s1" 5)

/-- A transient close at time 2: `handleReconnect` queues a 2000 ms backoff
and suspends at `await delay`. -/
def closedDuringBackoff : Session :=
  Session.onCloseTransient (some "connection closed") 2 connectedSession

/-- `stop()` called (and returned) at time 3, while the backoff timer queued
at time 2 is still pending. -/
def stoppedDuringBackoff : Session := Session.stop 3 closedDuringBackoff

/-- The queued backoff timer expires at time 4, after `stop()` returned. -/
def resumedAfterStop : Session := Session.reconnectTimerFire true 4 stoppedDuringBackoff

/-- `stop()` on a started session, and `stop()` again right after. -/
def stoppedOnce : Session := Session.stop 1 (startedSession "s1" 5)

def stoppedTwice : Session := Session.stop 2 stoppedOnce

/-- Bulk-start outcome function: the connect for id `"a"` throws, every other
id connects fine. -/
def failOnA : String → Bool := fun id => if id = "a" then false else true

/-- A registry holding one live (socket-bearing) session under id `"a"`. -/
def liveSession : Session := startedSession "a" 5

def registryWithLive : SessionRegistry :=
  SessionRegistry.set SessionRegistry.empty "a" liveSession

/-- Two saves of the same message id `"m1"` by two different sessions. -/
def msgV1 : WAMessage := ⟨"m1", "peer", false, 5, "hello v1"⟩

def msgV2 : WAMessage := ⟨"m1", "peer", false, 6, "hello v2"⟩

def sqliteTwoSessions : SqliteDb :=
  SQLiteStorageAdapter.saveMessage 20 "s2" msgV2
    (SQLiteStorageAdapter.saveMessage 10 "s1" msgV1 SqliteDb.empty)

def prismaTwoSessions : PrismaDb :=
  PrismaStorageAdapter.saveMessage "s2" msgV2
    (PrismaStorageAdapter.saveMessage "s1" msgV1 PrismaDb.empty)

/-! ## Formatter lemmas -/

theorem formatJid_ok_of_ne {x : String} (hx : x ≠ "") (g l : Option Bool) :
    exOk (formatJid x g l) = true := by
  simp only [formatJid, if_neg hx]
  repeat' split
  all_goals rfl

theorem formatJid_ok_iff (x : String) (g l : Option Bool) :
    exOk (formatJid x g l) = true ↔ x ≠ "" := by
  by_cases hx : x = ""
  · subst hx; simp [formatJid, exOk]
  · simp [formatJid_ok_of_ne hx, hx]

theorem smartFormatJid_ok_iff (x : String) :
    exOk (smartFormatJid x) = true ↔ jsTrim x ≠ "" := by
  by_cases hx : x = ""
  · subst hx; decide
  · by_cases ht : jsTrim x = ""
    · rw [smartFormatJid, if_neg hx]
      rw [ht]
      decide
    · have hok : exOk (smartFormatJid x) = true := by
        simp only [smartFormatJid, if_neg hx]
        split
        · rfl
        · split
          · exact formatJid_ok_of_ne ht _ _
          · split
            · exact formatJid_ok_of_ne ht _ _
            · exact formatJid_ok_of_ne ht _ _
      exact iff_of_true hok ht

/-- C9: `formatJid "123456789-1234567890"` returns the input with the group
suffix appended; passing `isGroup = false` does not suppress the
hyphen-pattern auto-detection (only `isGroup === true` is checked); and for
every non-empty input whose trimmed form carries none of the recognized
suffixes, `formatJid x true` appends the group suffix regardless of
pattern. -/
theorem C9_group_autodetect :
    formatJid "123456789-1234567890" none none = .ok "123456789-1234567890@g.us"
  ∧ formatJid "123456789-1234567890" (some false) none = .ok "123456789-1234567890@g.us"
  ∧ ∀ x : String, x ≠ "" → hasJidSuffix (jsTrim x) = false →
      formatJid x (some true) none = .ok (jsTrim x ++ "@g.us") := by
  refine ⟨by decide, by decide, ?_⟩
  intro x hx hs
  simp only [hasJidSuffix, Bool.or_eq_false_iff] at hs
  obtain ⟨⟨⟨h1, h2⟩, h3⟩, h4⟩ := hs
  simp only [formatJid, if_neg hx, h1, h2, h3, h4]
  simp

/-- Witness for C9 at the unsuffixed, hyphen-free input `"123456789"`. -/
theorem C9_group_autodetect_witness :
    formatJid "123456789" (some true) none = .ok "123456789@g.us" :=
  (C9_group_autodetect.2.2 "123456789" (by decide) (by decide)).trans (by decide)

/-- C10 counterexample: `" "` is a non-empty string, yet `smartFormatJid " "`
throws — it trims the input to `""` and feeds that to `formatJid`, whose
empty-input guard fires.  So "throws exactly when the input is the empty
string" is false for `smartFormatJid`. -/
theorem C10_smart_throws_on_whitespace_cex :
    smartFormatJid " " = .error "JID/nomor tidak boleh kosong" ∧ (" " : String) ≠ "" := by
  exact ⟨by decide, by decide⟩

/-- C10 amended: `formatJid` throws exactly on the empty string;
`smartFormatJid` throws exactly when the input trims to the empty string
(so also on whitespace-only inputs); every other input is returned formatted,
and digit counts outside 10-15 only produce a console warning — the value is
still suffixed and returned, as the two boundary instances show. -/
theorem C10_throw_on_empty_amended :
    (∀ (x : String) (g l : Option Bool), exOk (formatJid x g l) = true ↔ x ≠ "")
  ∧ (∀ x : String, exOk (smartFormatJid x) = true ↔ jsTrim x ≠ "")
  ∧ formatJid "12345" none none = .ok "12345@s.whatsapp.net"
  ∧ formatJid "1234567890123456" none none = .ok "1234567890123456@s.whatsapp.net" :=
  ⟨formatJid_ok_iff, smartFormatJid_ok_iff, by decide, by decide⟩

/-! ## Lifecycle lemmas -/

/-- One transient-failure round on a session that is armed for reconnection
and has retry budget left: the counter advances by one, the session ends up
holding a fresh socket in status `connecting`, and no `SESSION_ERROR` is
emitted. -/
theorem transientCycle_spec (s : Session)
    (hsr : s.shouldReconnect = true) (hrec : s.reconnecting = false)
    (hic : s.isConnecting = false) (hlt : s.retryCount < s.maxRetries) :
    (Session.transientCycle s).retryCount = s.retryCount + 1 ∧
    (Session.transientCycle s).maxRetries = s.maxRetries ∧
    (Session.transientCycle s).socket = true ∧
    (Session.transientCycle s).isConnecting = false ∧
    (Session.transientCycle s).reconnecting = false ∧
    (Session.transientCycle s).shouldReconnect = true ∧
    (Session.transientCycle s).pendingDelay = none ∧
    (Session.transientCycle s).status = Status.connecting ∧
    (Session.transientCycle s).events =
      s.events ++ [EvKind.connectionUpdate, EvKind.connectionClose, EvKind.sessionStart] := by
  obtain ⟨id, st, sock, ic, sr, rec, rc, mr, le, af, ca, sa, ua, ls, evs, pd⟩ := s
  simp only at hsr hrec hic hlt
  subst hsr hrec hic
  simp [Session.transientCycle, Session.onCloseTransient, Session.handleReconnectBegin,
    Session.reconnectTimerFire, Session.connect, updateStatus, touchActivity, emitBoth, hlt]

/-- Invariant of the consecutive-transient-failure trace: after `k ≤ maxRetries`
fully processed failures the session is still reconnecting (status
`connecting`, live replacement socket, counter `k`, nothing queued, no
`SESSION_ERROR` published yet). -/
theorem failTrace_inv (M k : Nat) (hk : k ≤ M) :
    (failTrace M k).retryCount = k ∧
    (failTrace M k).maxRetries = M ∧
    (failTrace M k).socket = true ∧
    (failTrace M k).isConnecting = false ∧
    (failTrace M k).reconnecting = false ∧
    (failTrace M k).shouldReconnect = true ∧
    (failTrace M k).pendingDelay = none ∧
    (failTrace M k).status = Status.connecting ∧
    EvKind.sessionError ∉ (failTrace M k).events := by
  induction k with
  | zero =>
      refine ⟨rfl, rfl, rfl, rfl, rfl, rfl, rfl, rfl, ?_⟩
      show EvKind.sessionError ∉ [EvKind.sessionStart]
      decide
  | succ k ih =>
      have hk' : k ≤ M := Nat.le_of_succ_le hk
      obtain ⟨h1, h2, h3, h4, h5, h6, h7, h8, h9⟩ := ih hk'
      have hlt : (failTrace M k).retryCount < (failTrace M k).maxRetries := by
        rw [h1, h2]; exact hk
      obtain ⟨g1, g2, g3, g4, g5, g6, g7, g8, g9⟩ :=
        transientCycle_spec (failTrace M k) h6 h5 h4 hlt
      refine ⟨?_, ?_, g3, g4, g5, g6, g7, g8, ?_⟩
      · rw [show failTrace M (k + 1) = Session.transientCycle (failTrace M k) from rfl, g1, h1]
      · rw [show failTrace M (k + 1) = Session.transientCycle (failTrace M k) from rfl, g2, h2]
      · rw [show failTrace M (k + 1) = Session.transientCycle (failTrace M k) from rfl, g9]
        simp [h9]

/-- A transient close once the retry budget is exhausted: `handleReconnect`
takes its else-branch — status `error`, `SESSION_ERROR` published, counter
and queue untouched, nothing new scheduled. -/
theorem onCloseTransient_exhaust (err : Option String) (now : Nat) (s : Session)
    (hsr : s.shouldReconnect = true) (hrec : s.reconnecting = false)
    (hge : ¬ s.retryCount < s.maxRetries) :
    (Session.onCloseTransient err now s).status = Status.error ∧
    (Session.onCloseTransient err now s).socket = false ∧
    (Session.onCloseTransient err now s).isConnecting = s.isConnecting ∧
    (Session.onCloseTransient err now s).reconnecting = false ∧
    (Session.onCloseTransient err now s).pendingDelay = s.pendingDelay ∧
    (Session.onCloseTransient err now s).retryCount = s.retryCount ∧
    (Session.onCloseTransient err now s).events =
      s.events ++ [EvKind.connectionUpdate, EvKind.connectionClose, EvKind.sessionError] := by
  obtain ⟨id, st, sock, ic, sr, rec, rc, mr, le, af, ca, sa, ua, ls, evs, pd⟩ := s
  simp only at hsr hrec hge
  subst hsr hrec
  simp [Session.onCloseTransient, Session.handleReconnectBegin, updateStatus, emitBoth, hge]

/-- A transient close with retry budget left queues a backoff timer of
`backoffMs (retryCount + 1)` milliseconds. -/
theorem onCloseTransient_schedule (err : Option String) (now : Nat) (s : Session)
    (hsr : s.shouldReconnect = true) (hrec : s.reconnecting = false)
    (hlt : s.retryCount < s.maxRetries) :
    (Session.onCloseTransient err now s).pendingDelay = some (backoffMs (s.retryCount + 1)) ∧
    (Session.onCloseTransient err now s).retryCount = s.retryCount + 1 ∧
    (Session.onCloseTransient err now s).status = Status.connecting ∧
    (Session.onCloseTransient err now s).events =
      s.events ++ [EvKind.connectionUpdate, EvKind.connectionClose] := by
  obtain ⟨id, st, sock, ic, sr, rec, rc, mr, le, af, ca, sa, ua, ls, evs, pd⟩ := s
  simp only at hsr hrec hlt
  subst hsr hrec
  simp [Session.onCloseTransient, Session.handleReconnectBegin, updateStatus, emitBoth, hlt]

/-- `start()` on a session with no socket and no connect in flight succeeds,
resets the retry counter and produces a connecting session with a live
socket. -/
theorem start_ok_spec (now : Nat) (s : Session)
    (hsock : s.socket = false) (hic : s.isConnecting = false) (hrec : s.reconnecting = false) :
    ∃ s', Session.start true now s = .ok s' ∧ s'.retryCount = 0 ∧
      s'.status = Status.connecting ∧ s'.socket = true ∧ s'.shouldReconnect = true := by
  obtain ⟨id, st, sock, ic, sr, rec, rc, mr, le, af, ca, sa, ua, ls, evs, pd⟩ := s
  simp only at hsock hic hrec
  subst hsock hic hrec
  exact ⟨_, rfl, rfl, rfl, rfl, rfl⟩

/-- C1 (code-bug evidence): `stop()` does not cancel a pending reconnect
backoff timer.  In the concrete trace — connected session, transient close
queueing a 2000 ms backoff, `stop()` returning while the timer is pending —
the session is stopped (`shouldReconnect = false`, status `disconnected`),
yet when the queued delay expires `handleReconnect` resumes without
re-checking `shouldReconnect`, clears its latch and calls `connect()`, and
the stopped session spontaneously transitions back to `connecting` with a
fresh live socket and a new `SESSION_START` emission. -/
theorem C1_stop_leaves_pending_reconnect :
    stoppedDuringBackoff.shouldReconnect = false
  ∧ stoppedDuringBackoff.status = Status.disconnected
  ∧ stoppedDuringBackoff.socket = false
  ∧ stoppedDuringBackoff.pendingDelay = some 2000
  ∧ resumedAfterStop.status = Status.connecting
  ∧ resumedAfterStop.socket = true
  ∧ resumedAfterStop.events = stoppedDuringBackoff.events ++ [EvKind.sessionStart] := by
  decide

/-- C2 counterexample: with `maxRetries = 1`, after exactly one consecutive
transient failure the session status is `connecting` — not `error` — no
`SESSION_ERROR` has been published, and a further reconnect attempt *was*
scheduled (the 2000 ms backoff), contradicting the claim that after exactly
`maxRetries` consecutive transient failures the status becomes `error` with
no further attempt scheduled. -/
theorem C2_error_requires_extra_failure_cex :
    (failTrace 1 1).status = Status.connecting
  ∧ (failTrace 1 1).status ≠ Status.error
  ∧ EvKind.sessionError ∉ (failTrace 1 1).events
  ∧ (Session.onCloseTransient (some "connection closed") 0 (failTrace 1 0)).pendingDelay
      = some 2000 := by
  decide

/-- C2 amended: up to and including the `maxRetries`-th consecutive transient
failure the session keeps reconnecting (status `connecting`, counter equal to
the number of failures, no `SESSION_ERROR` yet); on the next — the
`(maxRetries + 1)`-th — transient close the status becomes `error`, a
`SESSION_ERROR` event is published and no further reconnect is scheduled; a
subsequent explicit `start()` resets the retry counter to zero and begins a
new connection attempt. -/
theorem C2_retry_exhaustion_amended :
    (∀ M k : Nat, k ≤ M →
        (failTrace M k).status = Status.connecting
      ∧ (failTrace M k).retryCount = k
      ∧ EvKind.sessionError ∉ (failTrace M k).events)
  ∧ (∀ M : Nat,
        (Session.onCloseTransient (some "connection closed") 0 (failTrace M M)).status
          = Status.error
      ∧ EvKind.sessionError
          ∈ (Session.onCloseTransient (some "connection closed") 0 (failTrace M M)).events
      ∧ (Session.onCloseTransient (some "connection closed") 0 (failTrace M M)).pendingDelay
          = none)
  ∧ (∀ M : Nat, ∃ s',
        Session.start true 0 (Session.onCloseTransient (some "connection closed") 0
          (failTrace M M)) = .ok s'
      ∧ s'.retryCount = 0 ∧ s'.status = Status.connecting ∧ s'.socket = true) := by
  refine ⟨?_, ?_, ?_⟩
  · intro M k hk
    obtain ⟨h1, h2, h3, h4, h5, h6, h7, h8, h9⟩ := failTrace_inv M k hk
    exact ⟨h8, h1, h9⟩
  · intro M
    obtain ⟨h1, h2, h3, h4, h5, h6, h7, h8, h9⟩ := failTrace_inv M M (le_refl M)
    have hge : ¬ (failTrace M M).retryCount < (failTrace M M).maxRetries := by
      rw [h1, h2]; exact lt_irrefl M
    obtain ⟨g1, g2, g3, g4, g5, g6, g7⟩ :=
      onCloseTransient_exhaust (some "connection closed") 0 (failTrace M M) h6 h5 hge
    refine ⟨g1, ?_, ?_⟩
    · rw [g7]; simp
    · rw [g5, h7]
  · intro M
    obtain ⟨h1, h2, h3, h4, h5, h6, h7, h8, h9⟩ := failTrace_inv M M (le_refl M)
    have hge : ¬ (failTrace M M).retryCount < (failTrace M M).maxRetries := by
      rw [h1, h2]; exact lt_irrefl M
    obtain ⟨g1, g2, g3, g4, g5, g6, g7⟩ :=
      onCloseTransient_exhaust (some "connection closed") 0 (failTrace M M) h6 h5 hge
    obtain ⟨s', w1, w2, w3, w4, w5⟩ := start_ok_spec 0 _ g2 (g3.trans h4) g4
    exact ⟨s', w1, w2, w3, w4⟩

/-- Witness for C2 (amended) at `maxRetries = 2`. -/
theorem C2_retry_exhaustion_amended_witness :
    (failTrace 2 1).status = Status.connecting
  ∧ (failTrace 2 1).retryCount = 1
  ∧ (Session.onCloseTransient (some "connection closed") 0 (failTrace 2 2)).status
      = Status.error :=
  ⟨(C2_retry_exhaustion_amended.1 2 1 (by decide)).1,
   (C2_retry_exhaustion_amended.1 2 1 (by decide)).2.1,
   (C2_retry_exhaustion_amended.2.1 2).1⟩

/-- C3: the delay queued before the `N`-th consecutive reconnect attempt
(`1 ≤ N ≤ maxRetries`) equals `min(30000, 2000 * 2^(N-1))` — base 2000 ms,
ceiling 30000 ms — and the schedule is non-decreasing in the attempt
number. -/
theorem C3_backoff_schedule :
    (∀ M N : Nat, 1 ≤ N → N ≤ M →
      (Session.onCloseTransient (some "connection closed") 0 (failTrace M (N - 1))).pendingDelay
        = some (min 30000 (2000 * 2 ^ (N - 1))))
  ∧ (∀ a b : Nat, a ≤ b → backoffMs a ≤ backoffMs b) := by
  constructor
  · intro M N hN hNM
    have hk : N - 1 ≤ M := le_trans (Nat.sub_le N 1) hNM
    obtain ⟨g1, g2, g3, g4, g5, g6, g7, g8, g9⟩ := failTrace_inv M (N - 1) hk
    have hlt : (failTrace M (N - 1)).retryCount < (failTrace M (N - 1)).maxRetries := by
      rw [g1, g2]
      exact lt_of_lt_of_le (Nat.sub_lt (lt_of_lt_of_le one_pos hN) one_pos) hNM
    obtain ⟨p1, p2, p3, p4⟩ :=
      onCloseTransient_schedule (some "connection closed") 0 (failTrace M (N - 1)) g6 g5 hlt
    rw [p1, g1, Nat.sub_add_cancel hN]
    rfl
  · intro a b hab
    unfold backoffMs
    exact min_le_min (le_refl _)
      (Nat.mul_le_mul_left _ (Nat.pow_le_pow_right (by norm_num) (Nat.sub_le_sub_right hab 1)))

/-- Witness for C3: the third reconnect delay is 8000 ms. -/
theorem C3_backoff_schedule_witness :
    (Session.onCloseTransient (some "connection closed") 0 (failTrace 5 2)).pendingDelay
      = some 8000
  ∧ backoffMs 2 ≤ backoffMs 5 := by
  constructor
  · have h := C3_backoff_schedule.1 5 3 (by decide) (by decide)
    rw [h]; decide
  · exact C3_backoff_schedule.2 2 5 (by decide)

/-- C4: `stop()` leaves the per-session credential directory untouched (soft),
while `logout()` wipes it (hard), so a `start()` after `logout()` runs with no
stored credentials and the provisioning notification puts the session in the
QR state.  (`Session.logout` is modelled from spec §4.3 — see its
definition.) -/
theorem C4_stop_soft_logout_hard :
    (∀ (s : Session) (now : Nat), (Session.stop now s).authFiles = s.authFiles)
  ∧ (∀ (s : Session) (now : Nat), (Session.logout now s).authFiles = false)
  ∧ (∀ (s : Session) (n1 n2 : Nat), s.isConnecting = false →
      ∃ s', Session.start true n2 (Session.logout n1 s) = .ok s'
        ∧ s'.authFiles = false ∧ (Session.onQr n2 s').status = Status.qr) := by
  refine ⟨?_, ?_, ?_⟩
  · intro s now
    obtain ⟨id, st, sock, ic, sr, rec, rc, mr, le, af, ca, sa, ua, ls, evs, pd⟩ := s
    cases sock <;> rfl
  · intro s now
    obtain ⟨id, st, sock, ic, sr, rec, rc, mr, le, af, ca, sa, ua, ls, evs, pd⟩ := s
    cases sock <;> rfl
  · intro s n1 n2 hic
    obtain ⟨id, st, sock, ic, sr, rec, rc, mr, le, af, ca, sa, ua, ls, evs, pd⟩ := s
    simp only at hic
    subst hic
    cases rec <;> cases sock <;> exact ⟨_, rfl, rfl, rfl⟩

/-- Witness for C4 on a started session. -/
theorem C4_stop_soft_logout_hard_witness :
    (Session.stop 7 (startedSession "s1" 5)).authFiles = (startedSession "s1" 5).authFiles
  ∧ (∃ s', Session.start true 9 (Session.logout 8 (startedSession "s1" 5)) = .ok s'
      ∧ s'.authFiles = false ∧ (Session.onQr 9 s').status = Status.qr) :=
  ⟨C4_stop_soft_logout_hard.1 (startedSession "s1" 5) 7,
   C4_stop_soft_logout_hard.2.2 (startedSession "s1" 5) 8 9 rfl⟩

/-- C5: `create(id)` on a registry whose entry for `id` is live returns that
same instance with the registry unchanged (so a second `create` without an
intervening `destroy` cannot open a second connection), and `start()` on a
session that is already connecting or already holds a socket throws without
touching the session. -/
theorem C5_single_active_session :
    (∀ (r : SessionRegistry) (id : String) (s : Session) (M : Nat) (creds ok : Bool)
        (now : Nat),
        r id = some s → s.socket = true →
        SessionRegistry.create r id M creds ok now = .ok (s, r))
  ∧ (∀ (s : Session) (ok : Bool) (now : Nat),
        s.isConnecting = true ∨ s.socket = true →
        Session.start ok now s =
          .error (s!"Session {s.sessionId} is already active or connecting", s)) := by
  constructor
  · intro r id s M creds ok now hr hs
    unfold SessionRegistry.create
    rw [hr]
    simp [hs]
  · intro s ok now h
    unfold Session.start
    rcases h with h | h <;> simp [h]

/-- Witness for C5 on a registry holding one live session. -/
theorem C5_single_active_session_witness :
    SessionRegistry.create registryWithLive "a" 5 true true 0 = .ok (liveSession, registryWithLive)
  ∧ Session.start true 0 liveSession =
      .error ("Session a is already active or connecting", liveSession) := by
  constructor
  · exact C5_single_active_session.1 registryWithLive "a" liveSession 5 true true 0 rfl rfl
  · have h := C5_single_active_session.2 liveSession true 0 (Or.inr rfl)
    exact h.trans (by decide)

/-- C6 counterexample: `stop()` unconditionally executes `emitBoth(SESSION_STOP)`,
so the second of two consecutive `stop()` calls publishes an additional
`session-stopped` event — the second call is not a no-op. -/
theorem C6_second_stop_emits_again_cex :
    stoppedTwice.events = stoppedOnce.events ++ [EvKind.sessionStop]
  ∧ stoppedTwice.events.count EvKind.sessionStop = 2 := by
  decide

/-- C6 amended: a second `stop()` right after a completed first one leaves
every session field unchanged (status, socket, flags, counter, queued timer,
credentials, last error) except that it refreshes the update timestamp — but
it does publish one more `SESSION_STOP` event. -/
theorem C6_stop_idempotent_amended :
    ∀ (s : Session) (n1 n2 : Nat),
      (Session.stop n2 (Session.stop n1 s)).status = (Session.stop n1 s).status
    ∧ (Session.stop n2 (Session.stop n1 s)).socket = (Session.stop n1 s).socket
    ∧ (Session.stop n2 (Session.stop n1 s)).shouldReconnect
        = (Session.stop n1 s).shouldReconnect
    ∧ (Session.stop n2 (Session.stop n1 s)).retryCount = (Session.stop n1 s).retryCount
    ∧ (Session.stop n2 (Session.stop n1 s)).pendingDelay = (Session.stop n1 s).pendingDelay
    ∧ (Session.stop n2 (Session.stop n1 s)).authFiles = (Session.stop n1 s).authFiles
    ∧ (Session.stop n2 (Session.stop n1 s)).lastError = (Session.stop n1 s).lastError
    ∧ (Session.stop n2 (Session.stop n1 s)).updatedAt = n2
    ∧ (Session.stop n2 (Session.stop n1 s)).events
        = (Session.stop n1 s).events ++ [EvKind.sessionStop] := by
  intro s n1 n2
  obtain ⟨id, st, sock, ic, sr, rec, rc, mr, le, af, ca, sa, ua, ls, evs, pd⟩ := s
  cases sock <;> simp [Session.stop, updateStatus, emitBoth]

/-- C7 counterexample: `startByIds(["a", "b"])` where the connect for `"a"`
throws — the loop has no per-id try/catch, so the call fails and `"b"` is
never created. -/
theorem C7_startByIds_aborts_cex :
    sbiFailed (SessionRegistry.startByIds SessionRegistry.empty ["a", "b"] 5 true failOnA 0)
      = true
  ∧ (sbiReg (SessionRegistry.startByIds SessionRegistry.empty ["a", "b"] 5 true failOnA 0)) "b"
      = none := by
  exact ⟨rfl, rfl⟩

/-- `create` with a succeeding connect always returns `.ok`. -/
theorem create_ok_total (r : SessionRegistry) (id : String) (M : Nat) (creds : Bool)
    (now : Nat) :
    ∃ s rr, SessionRegistry.create r id M creds true now = .ok (s, rr) := by
  unfold SessionRegistry.create
  cases hr : r id with
  | none => exact ⟨_, _, rfl⟩
  | some existing =>
      cases hs : existing.socket with
      | true => exact ⟨existing, r, by simp [hs]⟩
      | false => exact ⟨_, _, by simp [hs]; rfl⟩

/-- After any outcome of `create r id`, the resulting registry has an entry
for `id` (the session is registered before `start()` is awaited). -/
theorem createReg_has_self (r : SessionRegistry) (id : String) (M : Nat) (creds ok : Bool)
    (now : Nat) :
    ((createReg (SessionRegistry.create r id M creds ok now)) id).isSome = true := by
  unfold SessionRegistry.create SessionRegistry.createNew
  cases hr : r id with
  | none =>
      cases hst : Session.start ok now (Session.make id M creds now) with
      | ok s' => simp [hst, createReg, SessionRegistry.set]
      | error p =>
          obtain ⟨msg, sErr⟩ := p
          simp [hst, createReg, SessionRegistry.set]
  | some existing =>
      cases hs : existing.socket with
      | true => simp [hs, createReg, hr]
      | false =>
          simp only [hs]
          cases hst : Session.start ok now (Session.make id M creds now) with
          | ok s' => simp [hst, createReg, SessionRegistry.set]
          | error p =>
              obtain ⟨msg, sErr⟩ := p
              simp [hst, createReg, SessionRegistry.set]

/-- `create` never removes other ids from the registry. -/
theorem createReg_mono (r : SessionRegistry) (id : String) (M : Nat) (creds ok : Bool)
    (now : Nat) (x : String) (hx : (r x).isSome = true) :
    ((createReg (SessionRegistry.create r id M creds ok now)) x).isSome = true := by
  by_cases hxid : x = id
  · subst hxid; exact createReg_has_self r x M creds ok now
  · unfold SessionRegistry.create SessionRegistry.createNew
    cases hr : r id with
    | none =>
        cases hst : Session.start ok now (Session.make id M creds now) with
        | ok s' => simpa [hst, createReg, SessionRegistry.set, hxid] using hx
        | error p =>
            obtain ⟨msg, sErr⟩ := p
            simpa [hst, createReg, SessionRegistry.set, hxid] using hx
    | some existing =>
        cases hs : existing.socket with
        | true => simpa [hs, createReg] using hx
        | false =>
            simp only [hs]
            cases hst : Session.start ok now (Session.make id M creds now) with
            | ok s' =>
                simpa [hst, createReg, SessionRegistry.set, SessionRegistry.remove, hxid]
                  using hx
            | error p =>
                obtain ⟨msg, sErr⟩ := p
                simpa [hst, createReg, SessionRegistry.set, SessionRegistry.remove, hxid]
                  using hx

/-- The warm-boot sweep never loses registered ids. -/
theorem loadAll_mono (ids : List String) (r : SessionRegistry) (M : Nat) (creds : Bool)
    (oks : String → Bool) (now : Nat) (x : String) (hx : (r x).isSome = true) :
    (((loadAllStoredSessions r ids M creds oks now).2) x).isSome = true := by
  induction ids generalizing r with
  | nil => exact hx
  | cons id rest ih =>
      unfold loadAllStoredSessions
      by_cases hh : SessionRegistry.has r id = true
      · simp only [hh, if_true]
        exact ih r hx
      · simp only [hh, if_false]
        cases hc : SessionRegistry.create r id M creds (oks id) now with
        | ok p =>
            have := createReg_mono r id M creds (oks id) now x hx
            rw [hc] at this
            exact ih p.2 this
        | error p =>
            have := createReg_mono r id M creds (oks id) now x hx
            rw [hc] at this
            exact ih p.2 this

/-- Every stored id whose own connect succeeds ends up registered by the
warm-boot sweep, regardless of failures among the other ids. -/
theorem loadAll_attempts_all (ids : List String) (r : SessionRegistry) (M : Nat)
    (creds : Bool) (oks : String → Bool) (now : Nat) (id : String)
    (hid : id ∈ ids) (hok : oks id = true) :
    (((loadAllStoredSessions r ids M creds oks now).2) id).isSome = true := by
  induction ids generalizing r with
  | nil => cases hid
  | cons id' rest ih =>
      unfold loadAllStoredSessions
      rcases List.mem_cons.mp hid with heq | hmem
      · subst heq
        by_cases hh : SessionRegistry.has r id = true
        · simp only [hh, if_true]
          exact loadAll_mono rest r M creds oks now id hh
        · simp only [hh, if_false]
          rw [hok]
          obtain ⟨s', rr, hc⟩ := create_ok_total r id M creds now
          rw [hc]
          have hself := createReg_has_self r id M creds true now
          rw [hc] at hself
          exact loadAll_mono rest rr M creds oks now id hself
      · by_cases hh : SessionRegistry.has r id' = true
        · simp only [hh, if_true]
          exact ih r hmem
        · simp only [hh, if_false]
          cases hc : SessionRegistry.create r id' M creds (oks id') now with
          | ok p => exact ih p.2 hmem
          | error p => exact ih p.2 hmem

/-- C7 amended: `SessionRegistry.startByIds` creates each id sequentially but
does *not* isolate per-id failures — the first failure propagates and aborts
the sweep (see the counterexample); when every id's connect succeeds the
whole sweep completes.  Per-id failure isolation holds instead in
`WacapWrapper.loadAllStoredSessions`, whose per-id try/catch guarantees that
every id with a succeeding connect is registered no matter which other ids
fail. -/
theorem C7_failure_isolation_amended :
    (∀ (r : SessionRegistry) (ids : List String) (M : Nat) (creds : Bool)
        (oks : String → Bool) (now : Nat),
        (∀ id ∈ ids, oks id = true) →
        ∃ ss rr, SessionRegistry.startByIds r ids M creds oks now = .ok (ss, rr))
  ∧ (∀ (r : SessionRegistry) (ids : List String) (M : Nat) (creds : Bool)
        (oks : String → Bool) (now : Nat) (id : String), id ∈ ids → oks id = true →
        (((loadAllStoredSessions r ids M creds oks now).2) id).isSome = true) := by
  constructor
  · intro r ids M creds oks now hall
    induction ids generalizing r with
    | nil => exact ⟨[], r, rfl⟩
    | cons id rest ih =>
        obtain ⟨s', rr, hc⟩ := create_ok_total r id M creds now
        obtain ⟨ss, rr', hrest⟩ := ih rr (fun i hi => hall i (List.mem_cons_of_mem id hi))
        refine ⟨s' :: ss, rr', ?_⟩
        unfold SessionRegistry.startByIds
        rw [hall id (List.mem_cons_self id rest), hc]
        simp [hrest]
  · intro r ids M creds oks now id hid hok
    exact loadAll_attempts_all ids r M creds oks now id hid hok

/-- Witness for C7 (amended): with `"a"` failing, `loadAllStoredSessions`
still registers `"b"`. -/
theorem C7_failure_isolation_amended_witness :
    (((loadAllStoredSessions SessionRegistry.empty ["a", "b"] 5 true failOnA 0).2) "b").isSome
      = true :=
  C7_failure_isolation_amended.2 SessionRegistry.empty ["a", "b"] 5 true failOnA 0 "b"
    (by decide) (by decide)

/-! ## Storage upsert lemmas -/

theorem upsert_key_map (key : α → Bool) (upd : α → α) (hk : ∀ r, key (upd r) = key r)
    (r : α) : key (if key r then upd r else r) = key r := by
  by_cases hkr : key r = true
  · simp [hkr, hk]
  · simp [hkr]

/-- Upserting the same record twice is the same as upserting it once, for any
conflict key the update preserves. -/
theorem upsert_upsert {α : Type} (key : α → Bool) (upd : α → α) (new : α)
    (hk : ∀ r, key (upd r) = key r) (hknew : key new = true)
    (hu : ∀ r, upd (upd r) = upd r) (hunew : upd new = new) (tbl : List α) :
    upsert key upd new (upsert key upd new tbl) = upsert key upd new tbl := by
  unfold upsert
  by_cases h : tbl.any key = true
  · rw [if_pos h]
    have h2 : (tbl.map fun r => if key r then upd r else r).any key = true := by
      obtain ⟨r, hr, hkr⟩ := List.any_eq_true.mp h
      exact List.any_eq_true.mpr
        ⟨_, List.mem_map_of_mem _ hr, by rw [upsert_key_map key upd hk r]; exact hkr⟩
    rw [if_pos h2, List.map_map]
    apply List.map_congr_left
    intro r _
    by_cases hkr : key r = true
    · simp [Function.comp, hkr, hk, hu r]
    · simp [Function.comp, hkr]
  · rw [if_neg h]
    have hall : ∀ r ∈ tbl, key r = false := by
      intro r hr
      by_contra hc
      exact h (List.any_eq_true.mpr ⟨r, hr, by revert hc; cases key r <;> simp⟩)
    have h2 : (tbl ++ [new]).any key = true := by
      rw [List.any_append]
      simp [hknew]
    rw [if_pos h2, List.map_append]
    have htbl : tbl.map (fun r => if key r then upd r else r) = tbl := by
      conv_rhs => rw [← List.map_id tbl]
      apply List.map_congr_left
      intro r hr
      simp [hall r hr]
    rw [htbl]
    simp [hknew, hunew]

theorem filter_length_upsert_map {α : Type} (key : α → Bool) (upd : α → α)
    (hk : ∀ r, key (upd r) = key r) (l : List α) :
    ((l.map fun r => if key r then upd r else r).filter key).length
      = (l.filter key).length := by
  induction l with
  | nil => rfl
  | cons a t iht =>
      simp only [List.map_cons, List.filter_cons, upsert_key_map key upd hk a]
      by_cases hka : key a = true
      · simp [hka, iht]
      · simp [hka, iht]

/-- After an upsert into a table holding at most one row for the key, exactly
one row matches the key. -/
theorem upsert_filter_length {α : Type} (key : α → Bool) (upd : α → α) (new : α)
    (hk : ∀ r, key (upd r) = key r) (hknew : key new = true) (tbl : List α)
    (h1 : (tbl.filter key).length ≤ 1) :
    ((upsert key upd new tbl).filter key).length = 1 := by
  unfold upsert
  by_cases h : tbl.any key = true
  · rw [if_pos h, filter_length_upsert_map key upd hk]
    obtain ⟨r, hr, hkr⟩ := List.any_eq_true.mp h
    have hmem : r ∈ tbl.filter key := List.mem_filter.mpr ⟨hr, hkr⟩
    have hpos : 0 < (tbl.filter key).length := List.length_pos.mpr (fun he => by
      rw [he] at hmem; cases hmem)
    omega
  · rw [if_neg h]
    have hall : ∀ r ∈ tbl, key r = false := by
      intro r hr
      by_contra hc
      exact h (List.any_eq_true.mpr ⟨r, hr, by revert hc; cases key r <;> simp⟩)
    rw [List.filter_append]
    have htbl : tbl.filter key = [] := List.filter_eq_nil_iff.mpr (fun r hr => by
      simp [hall r hr])
    rw [htbl]
    simp [hknew]

/-- Every key-matching row after an upsert carries content coming from the
upserted record. -/
theorem upsert_filter_content {α : Type} (key : α → Bool) (upd : α → α) (new : α)
    (P : α → Prop) (hP : ∀ r, P (upd r)) (hPnew : P new) (tbl : List α) :
    ∀ r ∈ (upsert key upd new tbl).filter key, P r := by
  intro r hr
  rw [List.mem_filter] at hr
  obtain ⟨hmem, hkey⟩ := hr
  unfold upsert at hmem
  by_cases h : tbl.any key = true
  · rw [if_pos h] at hmem
    obtain ⟨r0, hr0, heq⟩ := List.mem_map.mp hmem
    by_cases hk0 : key r0 = true
    · rw [if_pos hk0] at heq
      subst heq
      exact hP r0
    · rw [if_neg hk0] at heq
      subst heq
      exact absurd hkey hk0
  · rw [if_neg h] at hmem
    rcases List.mem_append.mp hmem with hmem | hmem
    · exact absurd (List.any_eq_true.mpr ⟨r, hmem, hkey⟩) (by simpa using h)
    · rw [List.mem_singleton] at hmem
      subst hmem
      exact hPnew

theorem ensure_any (now : Nat) (s : String) (db : SqliteDb) :
    ((SQLiteStorageAdapter.ensureSessionExists now s db).sessions).any
      (fun r => r.session_id = s) = true := by
  unfold SQLiteStorageAdapter.ensureSessionExists
  by_cases h : db.sessions.any (fun r => r.session_id = s) = true
  · rw [if_pos h]; exact h
  · rw [if_neg h]
    simp [List.any_append]

theorem ensure_of_any (now : Nat) (s : String) (db : SqliteDb)
    (h : (db.sessions).any (fun r => r.session_id = s) = true) :
    SQLiteStorageAdapter.ensureSessionExists now s db = db := by
  unfold SQLiteStorageAdapter.ensureSessionExists
  rw [if_pos h]

theorem ensure_msgs (now : Nat) (s : String) (db : SqliteDb) :
    (SQLiteStorageAdapter.ensureSessionExists now s db).messages = db.messages := by
  unfold SQLiteStorageAdapter.ensureSessionExists
  split <;> rfl

theorem ensure_contacts (now : Nat) (s : String) (db : SqliteDb) :
    (SQLiteStorageAdapter.ensureSessionExists now s db).contacts = db.contacts := by
  unfold SQLiteStorageAdapter.ensureSessionExists
  split <;> rfl

theorem ensure_chats (now : Nat) (s : String) (db : SqliteDb) :
    (SQLiteStorageAdapter.ensureSessionExists now s db).chats = db.chats := by
  unfold SQLiteStorageAdapter.ensureSessionExists
  split <;> rfl

theorem sqlite_saveMessage_idem (now : Nat) (s : String) (m : WAMessage) (db : SqliteDb) :
    SQLiteStorageAdapter.saveMessage now s m (SQLiteStorageAdapter.saveMessage now s m db)
      = SQLiteStorageAdapter.saveMessage now s m db := by
  have hE : SQLiteStorageAdapter.ensureSessionExists now s
      (SQLiteStorageAdapter.saveMessage now s m db)
      = SQLiteStorageAdapter.saveMessage now s m db :=
    ensure_of_any _ _ _ (ensure_any now s db)
  show ({ SQLiteStorageAdapter.ensureSessionExists now s
      (SQLiteStorageAdapter.saveMessage now s m db) with
    messages := (upsert (msgKey m) (msgUpd m (msgTs now m)) (msgNew s m (msgTs now m))
      (SQLiteStorageAdapter.ensureSessionExists now s
        (SQLiteStorageAdapter.saveMessage now s m db)).messages) } : SqliteDb)
    = SQLiteStorageAdapter.saveMessage now s m db
  rw [hE]
  have hm : (SQLiteStorageAdapter.saveMessage now s m db).messages
      = upsert (msgKey m) (msgUpd m (msgTs now m)) (msgNew s m (msgTs now m))
          (SQLiteStorageAdapter.ensureSessionExists now s db).messages := rfl
  rw [hm, upsert_upsert (msgKey m) (msgUpd m (msgTs now m)) (msgNew s m (msgTs now m))
    (fun r => rfl) (by simp [msgKey, msgNew]) (fun r => rfl) rfl]
  rfl

theorem sqlite_saveContact_idem (now : Nat) (s : String) (c : WAContact) (db : SqliteDb) :
    SQLiteStorageAdapter.saveContact now s c (SQLiteStorageAdapter.saveContact now s c db)
      = SQLiteStorageAdapter.saveContact now s c db := by
  have hE : SQLiteStorageAdapter.ensureSessionExists now s
      (SQLiteStorageAdapter.saveContact now s c db)
      = SQLiteStorageAdapter.saveContact now s c db :=
    ensure_of_any _ _ _ (ensure_any now s db)
  show ({ SQLiteStorageAdapter.ensureSessionExists now s
      (SQLiteStorageAdapter.saveContact now s c db) with
    contacts := (upsert (contactKeySql s c) (contactUpd c) (contactNew s c)
      (SQLiteStorageAdapter.ensureSessionExists now s
        (SQLiteStorageAdapter.saveContact now s c db)).contacts) } : SqliteDb)
    = SQLiteStorageAdapter.saveContact now s c db
  rw [hE]
  have hm : (SQLiteStorageAdapter.saveContact now s c db).contacts
      = upsert (contactKeySql s c) (contactUpd c) (contactNew s c)
          (SQLiteStorageAdapter.ensureSessionExists now s db).contacts := rfl
  rw [hm, upsert_upsert (contactKeySql s c) (contactUpd c) (contactNew s c)
    (fun r => rfl) (by simp [contactKeySql, contactNew]) (fun r => rfl) rfl]
  rfl

theorem sqlite_saveChat_idem (now : Nat) (s : String) (chat : WAChat) (db : SqliteDb) :
    SQLiteStorageAdapter.saveChat now s chat (SQLiteStorageAdapter.saveChat now s chat db)
      = SQLiteStorageAdapter.saveChat now s chat db := by
  have hE : SQLiteStorageAdapter.ensureSessionExists now s
      (SQLiteStorageAdapter.saveChat now s chat db)
      = SQLiteStorageAdapter.saveChat now s chat db :=
    ensure_of_any _ _ _ (ensure_any now s db)
  show ({ SQLiteStorageAdapter.ensureSessionExists now s
      (SQLiteStorageAdapter.saveChat now s chat db) with
    chats := (upsert (chatKeySql s chat) (chatUpd chat now) (chatNew s chat now)
      (SQLiteStorageAdapter.ensureSessionExists now s
        (SQLiteStorageAdapter.saveChat now s chat db)).chats) } : SqliteDb)
    = SQLiteStorageAdapter.saveChat now s chat db
  rw [hE]
  have hm : (SQLiteStorageAdapter.saveChat now s chat db).chats
      = upsert (chatKeySql s chat) (chatUpd chat now) (chatNew s chat now)
          (SQLiteStorageAdapter.ensureSessionExists now s db).chats := rfl
  rw [hm, upsert_upsert (chatKeySql s chat) (chatUpd chat now) (chatNew s chat now)
    (fun r => rfl) (by simp [chatKeySql, chatNew]) (fun r => rfl) rfl]
  rfl

theorem prisma_saveMessage_idem (s : String) (m : WAMessage) (db : PrismaDb) :
    PrismaStorageAdapter.saveMessage s m (PrismaStorageAdapter.saveMessage s m db)
      = PrismaStorageAdapter.saveMessage s m db := by
  show ({ PrismaStorageAdapter.saveMessage s m db with
    messages := (upsert (msgKey m) (msgUpd m (m.messageTimestamp * 1000))
      (msgNew s m (m.messageTimestamp * 1000))
      (PrismaStorageAdapter.saveMessage s m db).messages) } : PrismaDb)
    = PrismaStorageAdapter.saveMessage s m db
  have hm : (PrismaStorageAdapter.saveMessage s m db).messages
      = upsert (msgKey m) (msgUpd m (m.messageTimestamp * 1000))
          (msgNew s m (m.messageTimestamp * 1000)) db.messages := rfl
  rw [hm, upsert_upsert (msgKey m) (msgUpd m (m.messageTimestamp * 1000))
    (msgNew s m (m.messageTimestamp * 1000))
    (fun r => rfl) (by simp [msgKey, msgNew]) (fun r => rfl) rfl]
  rfl

theorem prisma_saveContact_idem (s : String) (c : WAContact) (db : PrismaDb) :
    PrismaStorageAdapter.saveContact s c (PrismaStorageAdapter.saveContact s c db)
      = PrismaStorageAdapter.saveContact s c db := by
  show ({ PrismaStorageAdapter.saveContact s c db with
    contacts := (upsert (contactKeyPrisma s c) (contactUpd c) (contactNew s c)
      (PrismaStorageAdapter.saveContact s c db).contacts) } : PrismaDb)
    = PrismaStorageAdapter.saveContact s c db
  have hm : (PrismaStorageAdapter.saveContact s c db).contacts
      = upsert (contactKeyPrisma s c) (contactUpd c) (contactNew s c) db.contacts := rfl
  rw [hm, upsert_upsert (contactKeyPrisma s c) (contactUpd c) (contactNew s c)
    (fun r => rfl) (by simp [contactKeyPrisma, contactNew]) (fun r => rfl) rfl]
  rfl

theorem prisma_saveChat_idem (now : Nat) (s : String) (chat : WAChat) (db : PrismaDb) :
    PrismaStorageAdapter.saveChat now s chat (PrismaStorageAdapter.saveChat now s chat db)
      = PrismaStorageAdapter.saveChat now s chat db := by
  show ({ PrismaStorageAdapter.saveChat now s chat db with
    chats := (upsert (chatKeyPrisma s chat) (chatUpd chat now) (chatNew s chat now)
      (PrismaStorageAdapter.saveChat now s chat db).chats) } : PrismaDb)
    = PrismaStorageAdapter.saveChat now s chat db
  have hm : (PrismaStorageAdapter.saveChat now s chat db).chats
      = upsert (chatKeyPrisma s chat) (chatUpd chat now) (chatNew s chat now) db.chats := rfl
  rw [hm, upsert_upsert (chatKeyPrisma s chat) (chatUpd chat now) (chatNew s chat now)
    (fun r => rfl) (by simp [chatKeyPrisma, chatNew]) (fun r => rfl) rfl]
  rfl

/-- C8 counterexample: the message upsert is keyed by the message id alone,
not by (session identifier, message id).  Saving message id `"m1"` from
session `"s1"` and then from `"s2"` leaves a single row — still owned by
`"s1"` but holding `"s2"`'s content — in both backends, whereas an upsert
keyed by (session identifier, message id), written from the spec's words,
leaves two rows. -/
theorem C8_message_key_not_per_session_cex :
    sqliteTwoSessions.messages = [⟨"m1", "s1", "peer", msgV2, 6, false⟩]
  ∧ prismaTwoSessions.messages = [⟨"m1", "s1", "peer", msgV2, 6000, false⟩]
  ∧ (specSaveMessageKeyedBySession "s2" msgV2
      (specSaveMessageKeyedBySession "s1" msgV1 [])).length = 2 := by
  exact ⟨rfl, rfl, rfl⟩

/-- C8 amended: for both backends all three save operations are idempotent
upserts — saving the same record twice equals saving it once, and a table
with at most one row per message id holds exactly one row with the latest
content after a save; `saveContact`/`saveChat` are keyed by
(session identifier, remote JID) — the same contact saved by two different
sessions yields two rows — while `saveMessage` is keyed by the message id
alone (see the counterexample). -/
theorem C8_upsert_idempotence_amended :
    (∀ (now : Nat) (s : String) (m : WAMessage) (db : SqliteDb),
      SQLiteStorageAdapter.saveMessage now s m (SQLiteStorageAdapter.saveMessage now s m db)
        = SQLiteStorageAdapter.saveMessage now s m db)
  ∧ (∀ (now : Nat) (s : String) (c : WAContact) (db : SqliteDb),
      SQLiteStorageAdapter.saveContact now s c (SQLiteStorageAdapter.saveContact now s c db)
        = SQLiteStorageAdapter.saveContact now s c db)
  ∧ (∀ (now : Nat) (s : String) (chat : WAChat) (db : SqliteDb),
      SQLiteStorageAdapter.saveChat now s chat (SQLiteStorageAdapter.saveChat now s chat db)
        = SQLiteStorageAdapter.saveChat now s chat db)
  ∧ (∀ (s : String) (m : WAMessage) (db : PrismaDb),
      PrismaStorageAdapter.saveMessage s m (PrismaStorageAdapter.saveMessage s m db)
        = PrismaStorageAdapter.saveMessage s m db)
  ∧ (∀ (s : String) (c : WAContact) (db : PrismaDb),
      PrismaStorageAdapter.saveContact s c (PrismaStorageAdapter.saveContact s c db)
        = PrismaStorageAdapter.saveContact s c db)
  ∧ (∀ (now : Nat) (s : String) (chat : WAChat) (db : PrismaDb),
      PrismaStorageAdapter.saveChat now s chat (PrismaStorageAdapter.saveChat now s chat db)
        = PrismaStorageAdapter.saveChat now s chat db)
  ∧ (∀ (now : Nat) (s : String) (m : WAMessage) (db : SqliteDb),
      (db.messages.filter (msgKey m)).length ≤ 1 →
      ((SQLiteStorageAdapter.saveMessage now s m db).messages.filter (msgKey m)).length = 1
      ∧ ∀ r ∈ (SQLiteStorageAdapter.saveMessage now s m db).messages.filter (msgKey m),
          r.message = m)
  ∧ (∀ (s1 s2 : String) (c : WAContact) (n1 n2 : Nat), s1 ≠ s2 →
      ((SQLiteStorageAdapter.saveContact n2 s2 c
        (SQLiteStorageAdapter.saveContact n1 s1 c SqliteDb.empty)).contacts).length = 2) := by
  refine ⟨sqlite_saveMessage_idem, sqlite_saveContact_idem, sqlite_saveChat_idem,
    prisma_saveMessage_idem, prisma_saveContact_idem, prisma_saveChat_idem, ?_, ?_⟩
  · intro now s m db h1
    have hm : (SQLiteStorageAdapter.saveMessage now s m db).messages
        = upsert (msgKey m) (msgUpd m (msgTs now m)) (msgNew s m (msgTs now m))
            (SQLiteStorageAdapter.ensureSessionExists now s db).messages := rfl
    rw [hm, ensure_msgs]
    constructor
    · exact upsert_filter_length (msgKey m) (msgUpd m (msgTs now m)) (msgNew s m (msgTs now m))
        (fun r => rfl) (by simp [msgKey, msgNew]) db.messages h1
    · exact upsert_filter_content (msgKey m) (msgUpd m (msgTs now m)) (msgNew s m (msgTs now m))
        (fun r => r.message = m) (fun r => rfl) rfl db.messages
  · intro s1 s2 c n1 n2 hne
    have hk : contactKeySql s2 c (contactNew s1 c) = false := by
      simp [contactKeySql, contactNew, hne]
    have hcts : (SQLiteStorageAdapter.saveContact n2 s2 c
        (SQLiteStorageAdapter.saveContact n1 s1 c SqliteDb.empty)).contacts
        = upsert (contactKeySql s2 c) (contactUpd c) (contactNew s2 c)
            (SQLiteStorageAdapter.ensureSessionExists n2 s2
              (SQLiteStorageAdapter.saveContact n1 s1 c SqliteDb.empty)).contacts := rfl
    rw [hcts, ensure_contacts]
    have hinner : (SQLiteStorageAdapter.saveContact n1 s1 c SqliteDb.empty).contacts
        = [contactNew s1 c] := rfl
    rw [hinner]
    simp [upsert, hk]

/-- Witness for C8 (amended): one row after a first save; two rows when two
different sessions save the same contact. -/
theorem C8_upsert_idempotence_amended_witness :
    ((SQLiteStorageAdapter.saveMessage 10 "s1" msgV1 SqliteDb.empty).messages.filter
        (msgKey msgV1)).length = 1
  ∧ ((SQLiteStorageAdapter.saveContact 2 "s2" ⟨"c1", none, none⟩
      (SQLiteStorageAdapter.saveContact 1 "s1" ⟨"c1", none, none⟩ SqliteDb.empty)).contacts).length
        = 2 :=
  ⟨(C8_upsert_idempotence_amended.2.2.2.2.2.2.1 10 "s1" msgV1 SqliteDb.empty (by decide)).1,
   C8_upsert_idempotence_amended.2.2.2.2.2.2.2 "s1" "s2" ⟨"c1", none, none⟩ 1 2 (by decide)⟩

end Wacap

